import Mathlib

/-!
Verification development for the kpk-portfolio repository.

Shallow embedding of the decision-bearing code:
* `src/proxy.ts` — the edge interceptor guarding `/work/*` (function `proxy`);
* `src/app/work/unlock/action/route.ts` — the unlock endpoint (`POST`);
* `src/app/work/unlock/UnlockClientPage.tsx` / `UnlockClient.tsx` — the
  unlock client's `next` handling and post-unlock navigation;
* `src/app/api/contact/route.ts` — the Next.js contact relay (`POST`);
* `public/send.php` — the PHP contact relay's validation chain.

Strings are modelled with Lean `String` (a list of unicode scalars); the
WHATWG `URLSearchParams` serialization used by `NextResponse.redirect` is
modelled at the byte level (UTF-8), with `application/x-www-form-urlencoded`
percent-encoding.
-/

/-- Uppercase hexadecimal digit for a value `< 16`. -/
def hexUpper (n : Nat) : Char :=
  if n < 10 then Char.ofNat (48 + n) else Char.ofNat (65 + (n - 10))

/-- `%XX` escape for one byte, uppercase hex (as `URLSearchParams` emits). -/
def percentByte (b : Nat) : List Char :=
  ['%', hexUpper (b / 16), hexUpper (b % 16)]

/-- UTF-8 bytes of one unicode scalar value. -/
def utf8Bytes (c : Char) : List Nat :=
  let n := c.toNat
  if n < 128 then [n]
  else if n < 2048 then [192 + n / 64, 128 + n % 64]
  else if n < 65536 then [224 + n / 4096, 128 + (n / 64) % 64, 128 + n % 64]
  else [240 + n / 262144, 128 + (n / 4096) % 64, 128 + (n / 64) % 64, 128 + n % 64]

/-- One byte of `application/x-www-form-urlencoded` output: alphanumerics and
`*`, `-`, `.`, `_` stand for themselves, space becomes `+`, everything else is
percent-escaped.  This is the serializer `URLSearchParams.toString` uses. -/
def formByte (b : Nat) : List Char :=
  if b = 32 then ['+']
  else if (48 ≤ b ∧ b ≤ 57) ∨ (65 ≤ b ∧ b ≤ 90) ∨ (97 ≤ b ∧ b ≤ 122)
          ∨ b = 42 ∨ b = 45 ∨ b = 46 ∨ b = 95 then [Char.ofNat b]
  else percentByte b

/-- Form-urlencoded encoding of a string (UTF-8 bytes, then `formByte`). -/
def formUrlEncode (s : String) : String :=
  ⟨((s.data.map utf8Bytes).flatten.map formByte).flatten⟩

/-- Value of a hexadecimal digit character, if it is one. -/
def hexVal (c : Char) : Option Nat :=
  if 48 ≤ c.toNat ∧ c.toNat ≤ 57 then some (c.toNat - 48)
  else if 65 ≤ c.toNat ∧ c.toNat ≤ 70 then some (c.toNat - 55)
  else if 97 ≤ c.toNat ∧ c.toNat ≤ 102 then some (c.toNat - 87)
  else none

/-- Percent-decoding of a form-urlencoded token down to its byte sequence:
`+` is a space, `%XX` with valid hex digits is one byte, any other character
contributes its own UTF-8 bytes (invalid escapes pass through, as in the
WHATWG parser). -/
def percentDecodeBytes : List Char → List Nat
  | [] => []
  | '%' :: h1 :: h2 :: rest =>
    match hexVal h1, hexVal h2 with
    | some a, some b => (16 * a + b) :: percentDecodeBytes rest
    | _, _ => 37 :: percentDecodeBytes (h1 :: h2 :: rest)
  | '+' :: rest => 32 :: percentDecodeBytes rest
  | c :: rest => utf8Bytes c ++ percentDecodeBytes rest

/-- Is `b` a UTF-8 continuation byte? -/
def isCont (b : Nat) : Bool := 128 ≤ b && b < 192

/-- Reassemble a byte sequence into unicode scalars (UTF-8; malformed
sequences yield the replacement character U+FFFD; validity subtleties such as
overlong forms are not modelled — never hit by ASCII inputs). -/
def utf8DecodeAux : Nat → List Nat → List Char
  | 0, _ => []
  | _ + 1, [] => []
  | fuel + 1, b :: rest =>
    if b < 128 then Char.ofNat b :: utf8DecodeAux fuel rest
    else if b < 192 then Char.ofNat 65533 :: utf8DecodeAux fuel rest
    else if b < 224 then
      match rest with
      | b2 :: rest2 =>
        if isCont b2 then Char.ofNat ((b % 32) * 64 + b2 % 64) :: utf8DecodeAux fuel rest2
        else Char.ofNat 65533 :: utf8DecodeAux fuel (b2 :: rest2)
      | [] => [Char.ofNat 65533]
    else if b < 240 then
      match rest with
      | b2 :: b3 :: rest3 =>
        if isCont b2 && isCont b3 then
          Char.ofNat ((b % 16) * 4096 + (b2 % 64) * 64 + b3 % 64) :: utf8DecodeAux fuel rest3
        else Char.ofNat 65533 :: utf8DecodeAux fuel (b2 :: b3 :: rest3)
      | _ => [Char.ofNat 65533]
    else
      match rest with
      | b2 :: b3 :: b4 :: rest4 =>
        if isCont b2 && isCont b3 && isCont b4 then
          Char.ofNat ((b % 8) * 262144 + (b2 % 64) * 4096 + (b3 % 64) * 64 + b4 % 64)
            :: utf8DecodeAux fuel rest4
        else Char.ofNat 65533 :: utf8DecodeAux fuel (b2 :: b3 :: b4 :: rest4)
      | _ => [Char.ofNat 65533]

/-- Reassemble a byte sequence into unicode scalars; the fuel (one unit per
byte consumed, each step consumes at least one byte) is the list length, so
the traversal always completes. -/
def utf8Decode (l : List Nat) : List Char := utf8DecodeAux l.length l

/-- Form-urlencoded decoding of a token. -/
def formUrlDecode (s : String) : String :=
  ⟨utf8Decode (percentDecodeBytes s.data)⟩

/-- Split a character list at every occurrence of `sep` (like
`String.splitOn` with a one-character separator): `""` gives `[""]`. -/
def splitOnCharList (sep : Char) (l : List Char) : List (List Char) :=
  l.foldr
    (fun c acc =>
      if c = sep then [] :: acc
      else
        match acc with
        | g :: gs => (c :: g) :: gs
        | [] => [[c]])
    [[]]

/-- Join character lists with a separator character between them. -/
def joinSepChar (sep : Char) : List (List Char) → List Char
  | [] => []
  | [x] => x
  | x :: xs => x ++ sep :: joinSepChar sep xs

/-- Parse a URL search string (with or without its leading `?`) into the
ordered key/value list a `URLSearchParams` object holds.  Empty segments are
skipped; a segment splits at its first `=` (no `=` means empty value). -/
def parseQuery (search : String) : List (String × String) :=
  let q : List Char :=
    match search.data with
    | '?' :: r => r
    | l => l
  (splitOnCharList '&' q).filterMap fun seg =>
    if seg.isEmpty then none
    else
      match splitOnCharList '=' seg with
      | [] => none
      | k :: rest =>
        some (formUrlDecode ⟨k⟩, formUrlDecode ⟨joinSepChar '=' rest⟩)

/-- Remove every pair with the given key. -/
def dropParam (ps : List (String × String)) (k : String) : List (String × String) :=
  ps.filter fun p => !(p.1 == k)

/-- `URLSearchParams.set`: replace the first pair with key `k` in place and
delete the rest; if no pair has that key, append one. -/
def setParam : List (String × String) → String → String → List (String × String)
  | [], k, v => [(k, v)]
  | (k', v') :: rest, k, v =>
    if k' = k then (k, v) :: dropParam rest k
    else (k', v') :: setParam rest k v

/-- `URLSearchParams.get`: value of the first pair with the key. -/
def getParam (ps : List (String × String)) (k : String) : Option String :=
  (ps.find? fun p => p.1 == k).map (·.2)

/-- `URLSearchParams.toString`: form-urlencoded serialization in order. -/
def serializeQuery (ps : List (String × String)) : String :=
  ⟨joinSepChar '&'
    (ps.map fun p => (formUrlEncode p.1).data ++ '=' :: (formUrlEncode p.2).data)⟩

/-- JS `String.prototype.startsWith`. -/
def startsWithStr (s p : String) : Bool := p.data.isPrefixOf s.data

/-- Outcome of the edge interceptor: `NextResponse.next()` (pass through) or
`NextResponse.redirect` to a location, modelled by its path + query (the
scheme and host of the cloned request URL are unchanged and omitted). -/
inductive ProxyResult
  | next : ProxyResult
  | redirect (location : String) : ProxyResult
deriving DecidableEq, Repr

/-- The redirect URL `proxy` builds on denial (src/proxy.ts lines 24-27):
clone the request URL, set its pathname to `/work/unlock`, and
`searchParams.set("next", pathname + search)` — the clone keeps the original
query parameters. -/
def redirectLocation (pathname search : String) : String :=
  let ps := setParam (parseQuery search) "next" (pathname ++ search)
  "/work/unlock" ++ (if ps.isEmpty then "" else "?" ++ serializeQuery ps)

/-- src/proxy.ts `proxy(req)`: `pathname`/`search` are `req.nextUrl`'s parts,
`cookie` is the value of the `case_access` request cookie if present. -/
def proxy (pathname search : String) (cookie : Option String) : ProxyResult :=
  -- `isProtectedWorkRoute` of lines 10-13, inlined into the guard of line 15
  if !(startsWithStr pathname "/work" && !startsWithStr pathname "/work/unlock"
      && !startsWithStr pathname "/api") then .next
  else if cookie = some "1" then .next
  else .redirect (redirectLocation pathname search)

/-- A JavaScript value as produced by `Request.json()` (the parsed JSON
document).  Numbers are modelled as integers — no claim touches fractional
values. -/
inductive JsVal
  | null : JsVal
  | bool (b : Bool) : JsVal
  | num (n : Int) : JsVal
  | str (s : String) : JsVal
  | arr (xs : List JsVal) : JsVal
  | obj (fields : List (String × JsVal)) : JsVal

/-- Property lookup used by the destructuring `const { password } = body`:
on an object the (last) binding for the key — `JSON.parse` keeps the last
duplicate — on any other non-null value there is no own `password` property,
so the result is `undefined` (`none`). -/
def jsField (v : JsVal) (key : String) : Option JsVal :=
  match v with
  | .obj fields => (fields.reverse.find? fun p => p.1 == key).map (·.2)
  | _ => none

/-- JS strict equality `password === expected` where `expected` is a string:
true exactly when `password` is a string with the same content. -/
def pwEq (password : Option JsVal) (expected : String) : Bool :=
  match password with
  | some (.str s) => s == expected
  | _ => false

/-- The cookie attached by `res.cookies.set("case_access", "1", {...})` in
src/app/work/unlock/action/route.ts: path `/`, HttpOnly, SameSite=Lax,
Secure only in production, and neither `maxAge` nor `expires` (a session
cookie). -/
structure SetCookie where
  name : String
  value : String
  path : String
  httpOnly : Bool
  sameSite : String
  secure : Bool
  maxAge : Option Nat
deriving DecidableEq, Repr

/-- Response of the unlock endpoint: HTTP status, the JSON body's `ok`
field, and the `Set-Cookie` header if one is attached. -/
structure UnlockResponse where
  status : Nat
  ok : Bool
  setCookie : Option SetCookie
deriving DecidableEq, Repr

/-- `NextResponse.json({ ok: false }, { status: 401 })` — no cookie. -/
def unlockDenied : UnlockResponse :=
  { status := 401, ok := false, setCookie := none }

/-- `NextResponse.json({ ok: true })` plus the `case_access` cookie. -/
def unlockGranted (production : Bool) : UnlockResponse :=
  { status := 200, ok := true,
    setCookie := some
      { name := "case_access", value := "1", path := "/",
        httpOnly := true, sameSite := "lax", secure := production,
        maxAge := none } }

/-- src/app/work/unlock/action/route.ts `POST`.

* `body` — result of `await req.json()`: `none` when the request body is not
  valid JSON (in that case `req.json()` rejects and the handler throws;
  Next.js surfaces the uncaught error as a 500 Internal Server Error, which
  the model reports as `Except.error`);
* a JSON `null` body makes the destructuring `const { password } = ...`
  throw a `TypeError`, also modelled as `Except.error`;
* `casePass` — `process.env.CASE_PASS` (absent = `none`); the guard
  `!expected` is JS falsiness, true for both `undefined` and `""`;
* `production` — whether `process.env.NODE_ENV === "production"`;
* `reqCookies` — the request's cookies; the handler never reads them, the
  parameter records that the response cannot depend on them. -/
def unlockPOST (body : Option JsVal) (casePass : Option String) (production : Bool)
    (reqCookies : List (String × String)) : Except String UnlockResponse :=
  match body with
  | none => .error "SyntaxError: request body is not valid JSON"
  | some JsVal.null => .error "TypeError: cannot destructure password of null"
  | some b =>
    let password := jsField b "password"
    let expected := casePass.getD ""
    let _ := reqCookies
    if expected = "" ∨ pwEq password expected = false then .ok unlockDenied
    else .ok (unlockGranted production)

/-- Request body the unlock client submits:
`JSON.stringify({ password })` with `password` a string. -/
def pwBody (pw : String) : JsVal := .obj [("password", .str pw)]

/-- src/app/work/unlock/UnlockClientPage.tsx line 8: the return target is the
`next` query parameter, or `"/work/calibration-software"` when the parameter
is absent (`searchParams.get("next") ?? ...` — `??` fires only on `null`). -/
def resolveNext (nextParam : Option String) : String :=
  nextParam.getD "/work/calibration-software"

/-- src/app/work/unlock/UnlockClient.tsx line 59: after a `res.ok` response
the client runs `router.replace(next)` with the `next` prop verbatim — no
validation of any kind is applied to the value. -/
def unlockNavTarget (nextParam : Option String) : String :=
  resolveNext nextParam

/-- Payload of the contact endpoint after `readPayload`
(src/app/api/contact/route.ts lines 18-61): each field is
`clean(x) = String(x ?? "").trim()` of the submitted form/JSON field. -/
structure ContactPayload where
  name : String
  email : String
  message : String
  company : String
deriving DecidableEq, Repr

/-- JS whitespace-or-`@` exclusion used by the email regular expression
(`[^\s@]`).  `Char.isWhitespace` models `\s` (exact for ASCII input). -/
def emailChar (c : Char) : Bool := !(c = '@' || c.isWhitespace)

/-- The test `/^[^\s@]+@[^\s@]+\.[^\s@]+$/.test(s)` of `isEmail`
(src/app/api/contact/route.ts line 8).  The string must contain exactly one
`@`; the part before it is nonempty without whitespace; the part after it
has no whitespace and a `.` that is neither its first nor its last
character (so both `[^\s@]+` around `\.` are nonempty). -/
def isEmail (s : String) : Bool :=
  match splitOnCharList '@' s.data with
  | [lp, dom] =>
    !lp.isEmpty && lp.all emailChar && dom.all emailChar
      && ((dom.drop 1).dropLast.contains '.')
  | _ => false

/-- JS `a || b` for an optional environment string: the default applies when
the variable is unset or empty. -/
def jsOr (v : Option String) (d : String) : String :=
  if v.getD "" = "" then d else v.getD ""

/-- The outbound request `fetch("https://api.resend.com/emails", ...)`
would carry (src/app/api/contact/route.ts lines 97-110). -/
structure EmailRequest where
  fromAddr : String
  toAddr : String
  replyTo : String
  subject : String
  text : String
  apiKey : String
deriving DecidableEq, Repr

/-- Outcome of the contact endpoint's decision logic: an error response
(status + `error` body field) produced before any outbound call, or the
outbound email request being attempted.  (After a forward, the caller's
response additionally depends on the provider's answer.) -/
inductive ContactResult
  | reject (status : Nat) (error : String) : ContactResult
  | forward (req : EmailRequest) : ContactResult
deriving DecidableEq, Repr

/-- src/app/api/contact/route.ts `POST` (lines 63-110): honeypot, required
fields, email shape, configuration check, then the Resend call.  JS string
truthiness (`if (company)`, `!name`, `!RESEND_API_KEY`) is emptiness. -/
def contactPOST (p : ContactPayload) (resendKey contactTo contactFrom : Option String) :
    ContactResult :=
  if p.company ≠ "" then .reject 400 "Submission rejected"
  else if p.name = "" ∨ p.email = "" ∨ p.message = "" then
    .reject 400 "All fields are required"
  else if isEmail p.email = false then .reject 400 "Invalid email address"
  else if resendKey.getD "" = "" then
    .reject 500 "Server not configured (missing RESEND_API_KEY)"
  else
    .forward
      { fromAddr := jsOr contactFrom "Portfolio Contact <onboarding@resend.dev>",
        toAddr := jsOr contactTo "hello@kevinpkoch.com",
        replyTo := p.email,
        subject := "Portfolio contact: " ++ p.name,
        text := "Name: " ++ p.name ++ "\nEmail: " ++ p.email ++ "\n\n" ++ p.message,
        apiKey := resendKey.getD "" }

/-- Does `sub` occur as a contiguous run inside `hay`? -/
def hasInfixSeq (sub : List Char) : List Char → Bool
  | [] => sub.isEmpty
  | c :: t => sub.isPrefixOf (c :: t) || hasInfixSeq sub t

/-- PHP `stripos(hay, needle) !== false`: case-insensitive substring test. -/
def phpStripos (hay needle : String) : Bool :=
  hasInfixSeq (needle.data.map Char.toLower) (hay.data.map Char.toLower)

/-- The header-injection filter of public/send.php lines 93-99: any of
`"\r"`, `"\n"`, `"%0a"`, `"%0d"` occurring in the value. -/
def headerInject (s : String) : Bool :=
  phpStripos s "\r" || phpStripos s "\n" || phpStripos s "%0a" || phpStripos s "%0d"

/-- Outcome of public/send.php: a `json_error(status, msg)` exit, or control
reaching the `mail(...)` call (the message is handed to the mail transport;
the caller's response then depends on whether `mail` succeeds). -/
inductive PhpResult
  | reject (status : Nat) (msg : String) : PhpResult
  | forward : PhpResult
deriving DecidableEq, Repr

/-- public/send.php (validation chain of lines 60-99 and the rate-limit
check of lines 101-141; `$useRecaptcha` is `false` in the source so the
reCAPTCHA block is skipped).

Arguments are the values of the PHP variables right after extraction:
`name`, `email`, `company` are `clean($_POST[...])` (trimmed, tags
stripped), `message` is `trim(...)`, `tookMs` is `(int)($_POST['took_ms'] ?? 0)`.
`phpEmailOk` stands for `filter_var($email, FILTER_VALIDATE_EMAIL)` (an
uninterpreted predicate — its internals are not claim-relevant),
`timestamps` is the fingerprint file's recorded send times and `now` the
current unix time.  Config constants are inlined from lines 7-18:
`$maxLen = 2000`, `$minHumanTimeMs = 1200`, `$maxHumanTimeMs = 3600000`,
`$burstWindowSeconds = 60` / max 2, `$hourWindowSeconds = 3600` / max 8. -/
def sendPhp (name email message company : String) (tookMs : Int)
    (phpEmailOk : String → Bool) (timestamps : List Int) (now : Int) : PhpResult :=
  if company ≠ "" then .reject 400 "Submission rejected"
  else if 0 < tookMs ∧ tookMs < 1200 then .reject 429 "Too fast. Please try again."
  else if 0 < tookMs ∧ 3600000 < tookMs then .reject 400 "Invalid submission time."
  else if name = "" ∨ email = "" ∨ message = "" then .reject 400 "All fields are required"
  else if phpEmailOk email = false then .reject 400 "Invalid email address"
  else if 2000 < message.length then .reject 400 "Message too long"
  else if headerInject email ∨ headerInject name then .reject 400 "Invalid input"
  else
    let recent := timestamps.filter fun ts => now - ts ≤ 3600
    if 2 ≤ (recent.filter fun ts => now - ts ≤ 60).length then
      .reject 429 "Too many messages. Please wait a bit and try again."
    else if 8 ≤ recent.length then
      .reject 429 "Hourly limit reached. Please try again later."
    else .forward

/-- A `/work`-prefixed path can never be `/api`-prefixed: the characters at
index 1 differ. -/
theorem api_prefix_false (l : List Char)
    (h : List.isPrefixOf ['/', 'w', 'o', 'r', 'k'] l = true) :
    List.isPrefixOf ['/', 'a', 'p', 'i'] l = false := by
  cases l with
  | nil => simp [List.isPrefixOf] at h
  | cons a t =>
    cases t with
    | nil => simp [List.isPrefixOf] at h
    | cons b t2 =>
      simp only [List.isPrefixOf, Bool.and_eq_true, beq_iff_eq] at h
      obtain ⟨rfl, rfl, -⟩ := h
      simp [List.isPrefixOf]

/-- `startsWithStr` version of `api_prefix_false`. -/
theorem startsWith_work_not_api (s : String)
    (h : startsWithStr s "/work" = true) : startsWithStr s "/api" = false := by
  have hw : ("/work").data = ['/', 'w', 'o', 'r', 'k'] := by decide
  have ha : ("/api").data = ['/', 'a', 'p', 'i'] := by decide
  unfold startsWithStr at h ⊢
  rw [hw] at h
  rw [ha]
  exact api_prefix_false s.data h

/-- The first parameter with key `k` after `setParam ps k v` is `(k, v)`. -/
theorem find?_setParam (ps : List (String × String)) (k v : String) :
    (setParam ps k v).find? (fun p => p.1 == k) = some (k, v) := by
  induction ps with
  | nil => simp [setParam, List.find?]
  | cons p rest ih =>
    obtain ⟨k', v'⟩ := p
    by_cases hk : k' = k
    · simp [setParam, hk, List.find?]
    · have hbeq : (k' == k) = false := by simpa using hk
      simp [setParam, hk, List.find?, hbeq, ih]

/-- `URLSearchParams.get` after `URLSearchParams.set` returns the set value. -/
theorem getParam_setParam (ps : List (String × String)) (k v : String) :
    getParam (setParam ps k v) k = some v := by
  simp [getParam, find?_setParam]

/-- `setParam` never yields the empty parameter list. -/
theorem setParam_isEmpty_false (ps : List (String × String)) (k v : String) :
    (setParam ps k v).isEmpty = false := by
  cases ps with
  | nil => simp [setParam]
  | cons p rest =>
    obtain ⟨k', v'⟩ := p
    by_cases hk : k' = k <;> simp [setParam, hk]

/-- C1: for every request whose path starts with "/work" and is not under
the unlock sub-path, the interceptor passes through exactly when the
`case_access` cookie equals "1"; any other cookie value or an absent cookie
yields a redirect. -/
theorem proxy_protected_iff_cookie (pathname search : String) (cookie : Option String)
    (hw : startsWithStr pathname "/work" = true)
    (hu : startsWithStr pathname "/work/unlock" = false) :
    (proxy pathname search cookie = ProxyResult.next ↔ cookie = some "1") ∧
    (cookie ≠ some "1" →
      proxy pathname search cookie =
        ProxyResult.redirect (redirectLocation pathname search)) := by
  have hapi : startsWithStr pathname "/api" = false := startsWith_work_not_api pathname hw
  by_cases hc : cookie = some "1" <;>
    simp [proxy, hw, hu, hapi, hc]

/-- C1 witness: a cookieless request to a protected path is redirected. -/
theorem proxy_protected_iff_cookie_witness :
    proxy "/work/decentralized-exchange" "" none =
      ProxyResult.redirect (redirectLocation "/work/decentralized-exchange" "") :=
  (proxy_protected_iff_cookie "/work/decentralized-exchange" "" none
    (by decide) (by decide)).2 (by decide)

/-- C2: with a configured non-empty secret, the matching password yields 200
with the `case_access=1` HttpOnly SameSite=Lax session cookie on path `/`;
in every other case (wrong password, or unset/empty secret even with an
empty password) the endpoint yields 401 with no Set-Cookie. -/
theorem unlock_endpoint_contract (casePass : Option String) (pw : String)
    (production : Bool) (reqCookies : List (String × String)) :
    (casePass.getD "" ≠ "" ∧ pw = casePass.getD "" →
      unlockPOST (some (pwBody pw)) casePass production reqCookies =
        .ok (unlockGranted production)) ∧
    (casePass.getD "" = "" ∨ pw ≠ casePass.getD "" →
      unlockPOST (some (pwBody pw)) casePass production reqCookies = .ok unlockDenied) := by
  constructor
  · rintro ⟨h1, h2⟩
    simp [unlockPOST, pwBody, jsField, pwEq, List.find?, h1, h2]
  · rintro (h | h) <;> simp [unlockPOST, pwBody, jsField, pwEq, List.find?, h]

/-- C2 witness: correct secret grants the cookie; a wrong one and an unset
secret (with empty password) are both denied without a cookie. -/
theorem unlock_endpoint_contract_witness :
    unlockPOST (some (pwBody "open-sesame")) (some "open-sesame") true [] =
      .ok (unlockGranted true) ∧
    unlockPOST (some (pwBody "wrong")) (some "open-sesame") true [] = .ok unlockDenied ∧
    unlockPOST (some (pwBody "")) none false [] = .ok unlockDenied :=
  ⟨(unlock_endpoint_contract (some "open-sesame") "open-sesame" true []).1
      ⟨by decide, rfl⟩,
   (unlock_endpoint_contract (some "open-sesame") "wrong" true []).2 (Or.inr (by decide)),
   (unlock_endpoint_contract none "" false []).2 (Or.inl rfl)⟩

/-- C3: any path under the protected prefix that is the unlock sub-path — or
an "/api"-prefixed path, which is vacuous since no "/work"-prefixed path is
"/api"-prefixed — passes through for every cookie state. -/
theorem proxy_unlock_api_pass (pathname search : String) (cookie : Option String)
    (hw : startsWithStr pathname "/work" = true)
    (h : startsWithStr pathname "/work/unlock" = true ∨
         startsWithStr pathname "/api" = true) :
    proxy pathname search cookie = ProxyResult.next := by
  rcases h with h | h
  · simp [proxy, h]
  · exact absurd h (by simp [startsWith_work_not_api pathname hw])

/-- C3 witness: the unlock page itself passes through with no cookie. -/
theorem proxy_unlock_api_pass_witness :
    proxy "/work/unlock" "?next=%2Fwork%2Fx" none = ProxyResult.next :=
  proxy_unlock_api_pass "/work/unlock" "?next=%2Fwork%2Fx" none
    (by decide) (Or.inl (by decide))

/-- C4 counterexample: a denied request to `/work/calibration-software?ref=li`
redirects to `/work/unlock?ref=li&next=%2Fwork%2Fcalibration-software%3Fref%3Dli`
— the clone keeps the original `ref=li` — not to the claimed
`/work/unlock?next=%2Fwork%2Fcalibration-software%3Fref%3Dli`. -/
theorem proxy_redirect_counterexample :
    proxy "/work/calibration-software" "?ref=li" none =
      ProxyResult.redirect
        "/work/unlock?ref=li&next=%2Fwork%2Fcalibration-software%3Fref%3Dli" ∧
    "/work/unlock?ref=li&next=%2Fwork%2Fcalibration-software%3Fref%3Dli" ≠
      "/work/unlock?next=%2Fwork%2Fcalibration-software%3Fref%3Dli" :=
  ⟨by rfl, by decide⟩

/-- C4 (amended): every denial redirects to the unlock path whose query is
the original query parameters with `next` set to the original path + query
verbatim; the `next` parameter of the redirect decodes to exactly that
value. -/
theorem proxy_redirect_next_param (pathname search : String) (cookie : Option String)
    (loc : String) (h : proxy pathname search cookie = ProxyResult.redirect loc) :
    loc = "/work/unlock?" ++
        serializeQuery (setParam (parseQuery search) "next" (pathname ++ search)) ∧
    getParam (setParam (parseQuery search) "next" (pathname ++ search)) "next" =
      some (pathname ++ search) := by
  refine ⟨?_, getParam_setParam _ _ _⟩
  unfold proxy at h
  split at h
  · exact absurd h (by simp)
  · split at h
    · exact absurd h (by simp)
    · have := (ProxyResult.redirect.injEq _ _).mp h.symm
      rw [this]
      simp only [redirectLocation, setParam_isEmpty_false, Bool.false_eq_true,
        if_false, ite_false]
      rw [← String.append_assoc]
      rfl

/-- C4 witness: at a concrete denial the redirect's `next` parameter decodes
to the original path + query. -/
theorem proxy_redirect_next_param_witness :
    ("/work/unlock?next=%2Fwork%2Fa" : String) = "/work/unlock?" ++
        serializeQuery (setParam (parseQuery "") "next" ("/work/a" ++ "")) ∧
    getParam (setParam (parseQuery "") "next" ("/work/a" ++ "")) "next" =
      some ("/work/a" ++ "") :=
  proxy_redirect_next_param "/work/a" "" none "/work/unlock?next=%2Fwork%2Fa" (by rfl)

/-- C5: the unlock client navigates to the `next` value verbatim — an
absolute URL and a protocol-relative URL are used as-is, not replaced by the
default protected path, so no same-origin constraint is applied. -/
theorem unlock_nav_no_validation :
    unlockNavTarget (some "https://evil.example/phish") = "https://evil.example/phish" ∧
    unlockNavTarget (some "//evil.example") = "//evil.example" ∧
    unlockNavTarget (some "/work/decentralized-exchange") =
      "/work/decentralized-exchange" :=
  ⟨rfl, rfl, rfl⟩

/-- C6 counterexample: a request body that is JSON `null` (whose password
field is certainly missing) makes the handler throw instead of answering
401, as does a body that is not valid JSON at all. -/
theorem unlock_malformed_body_crash :
    unlockPOST (some JsVal.null) (some "open-sesame") false [] =
      Except.error "TypeError: cannot destructure password of null" ∧
    unlockPOST none (some "open-sesame") false [] =
      Except.error "SyntaxError: request body is not valid JSON" :=
  ⟨rfl, rfl⟩

/-- C6 (amended): any JSON object body whose `password` member is missing or
not a string resolves to the 401 response — no crash — whatever the
configured secret. -/
theorem unlock_object_body_resolves (fields : List (String × JsVal))
    (casePass : Option String) (production : Bool) (reqCookies : List (String × String))
    (h : ∀ s, jsField (JsVal.obj fields) "password" ≠ some (JsVal.str s)) :
    unlockPOST (some (.obj fields)) casePass production reqCookies = .ok unlockDenied := by
  have hpw : pwEq (jsField (JsVal.obj fields) "password") (casePass.getD "") = false := by
    cases hf : jsField (JsVal.obj fields) "password" with
    | none => simp [pwEq]
    | some v =>
      cases v with
      | str s => exact absurd hf (h s)
      | null => simp [pwEq]
      | bool b => simp [pwEq]
      | num n => simp [pwEq]
      | arr xs => simp [pwEq]
      | obj fs => simp [pwEq]
  simp [unlockPOST, hpw]

/-- C6 witness: a numeric password in an object body is answered with 401. -/
theorem unlock_object_body_resolves_witness :
    unlockPOST (some (.obj [("password", JsVal.num 42)])) (some "open-sesame") false [] =
      .ok unlockDenied :=
  unlock_object_body_resolves [("password", JsVal.num 42)] (some "open-sesame") false []
    (fun _ h => JsVal.noConfusion (Option.some.inj h))

/-- C7: with a configured non-empty secret, submitting the correct password
returns 200 with the same cookie on both a first and a repeated request,
whatever cookies each request already carries (the handler reads none). -/
theorem unlock_idempotent (s : String) (production : Bool)
    (c1 c2 : List (String × String)) (h : s ≠ "") :
    unlockPOST (some (pwBody s)) (some s) production c1 = .ok (unlockGranted production) ∧
    unlockPOST (some (pwBody s)) (some s) production c2 = .ok (unlockGranted production) := by
  constructor <;> simp [unlockPOST, pwBody, jsField, pwEq, List.find?, h]

/-- C7 witness: two consecutive correct submissions, the second already
carrying the cookie, both succeed with the identical cookie. -/
theorem unlock_idempotent_witness :
    unlockPOST (some (pwBody "open-sesame")) (some "open-sesame") true [] =
      .ok (unlockGranted true) ∧
    unlockPOST (some (pwBody "open-sesame")) (some "open-sesame") true
        [("case_access", "1")] = .ok (unlockGranted true) :=
  unlock_idempotent "open-sesame" true [] [("case_access", "1")] (by decide)

/-- A 2001-character message, one character over the 2000-character bound. -/
def longMessage : String := ⟨List.replicate 2001 'a'⟩

/-- C8 counterexample: the Next.js relay forwards a valid-looking submission
whose message is 2001 characters long (it has no length bound and no timing
check), and the PHP relay forwards a submission whose reported elapsed time
is 0 ms (below the 1200 ms minimum) because the timing trap only fires for
positive `took_ms`. -/
theorem contact_checks_counterexample :
    contactPOST
        { name := "Ada", email := "ada@example.com", message := longMessage,
          company := "" } (some "re_key") none none =
      ContactResult.forward
        { fromAddr := "Portfolio Contact <onboarding@resend.dev>",
          toAddr := "hello@kevinpkoch.com", replyTo := "ada@example.com",
          subject := "Portfolio contact: Ada",
          text := "Name: Ada\nEmail: ada@example.com\n\n" ++ longMessage,
          apiKey := "re_key" } ∧
    2000 < longMessage.length ∧
    sendPhp "Ada" "ada@example.com" "hello" "" 0 (fun _ => true) [] 1759276800 =
      PhpResult.forward := by
  refine ⟨by rfl, ?_, by rfl⟩
  show 2000 < (List.replicate 2001 'a').length
  rw [List.length_replicate]
  norm_num

/-- C8 (amended): a forwarded submission always passed the relay's own
checks — for the Next.js relay: empty honeypot, non-empty fields, and the
email shape test (it enforces no length bound and no timing heuristic); for
the PHP relay additionally the 2000-character bound and, whenever the
reported elapsed time is positive, the 1200 ms / 1 h timing window. -/
theorem contact_forward_requires_checks :
    (∀ (p : ContactPayload) (key toE frE : Option String) (e : EmailRequest),
        contactPOST p key toE frE = ContactResult.forward e →
        p.company = "" ∧ p.name ≠ "" ∧ p.email ≠ "" ∧ p.message ≠ "" ∧
          isEmail p.email = true) ∧
    (∀ (n em msg comp : String) (tookMs : Int) (phpEmailOk : String → Bool)
        (ts : List Int) (now : Int),
        sendPhp n em msg comp tookMs phpEmailOk ts now = PhpResult.forward →
        comp = "" ∧ n ≠ "" ∧ em ≠ "" ∧ msg ≠ "" ∧ phpEmailOk em = true ∧
          msg.length ≤ 2000 ∧
          (0 < tookMs → 1200 ≤ tookMs ∧ tookMs ≤ 3600000)) := by
  constructor
  · intro p key toE frE e h
    by_cases h1 : p.company = ""
    · by_cases h2 : p.name = "" ∨ p.email = "" ∨ p.message = ""
      · simp [contactPOST, h1, h2] at h
      · by_cases h3 : isEmail p.email = false
        · simp [contactPOST, h1, h2, h3] at h
        · push_neg at h2
          exact ⟨h1, h2.1, h2.2.1, h2.2.2,
            by simpa using h3⟩
    · simp [contactPOST, h1] at h
  · intro n em msg comp tookMs phpEmailOk ts now h
    by_cases h1 : comp = ""
    · by_cases h2 : 0 < tookMs ∧ tookMs < 1200
      · simp [sendPhp, h1, h2] at h
      · by_cases h3 : 0 < tookMs ∧ 3600000 < tookMs
        · simp [sendPhp, h1, h2, h3] at h
          split at h <;> exact PhpResult.noConfusion h
        · by_cases h4 : n = "" ∨ em = "" ∨ msg = ""
          · simp [sendPhp, h1, h2, h3, h4] at h
          · by_cases h5 : phpEmailOk em = false
            · simp [sendPhp, h1, h2, h3, h4, h5] at h
            · by_cases h6 : 2000 < msg.length
              · simp [sendPhp, h1, h2, h3, h4, h5, h6] at h
              · push_neg at h2 h3 h4 h6
                refine ⟨h1, h4.1, h4.2.1, h4.2.2, by simpa using h5, h6, ?_⟩
                intro hpos
                exact ⟨h2 hpos, h3 hpos⟩
    · simp [sendPhp, h1] at h

/-- C8 witness: a clean submission forwarded by each relay indeed passes the
respective checks. -/
theorem contact_forward_requires_checks_witness :
    (("" : String) = "" ∧ ("Ada" : String) ≠ "" ∧ ("ada@example.com" : String) ≠ "" ∧
      ("Hi" : String) ≠ "" ∧ isEmail "ada@example.com" = true) ∧
    ("" : String) = "" ∧ ("Ada" : String) ≠ "" ∧ ("ada@example.com" : String) ≠ "" ∧
      ("Hi" : String) ≠ "" ∧ (fun (_ : String) => true) "ada@example.com" = true ∧
      ("Hi" : String).length ≤ 2000 ∧
      (0 < (1500 : Int) → 1200 ≤ (1500 : Int) ∧ (1500 : Int) ≤ 3600000) :=
  ⟨contact_forward_requires_checks.1
      { name := "Ada", email := "ada@example.com", message := "Hi", company := "" }
      (some "re_key") none none
      { fromAddr := "Portfolio Contact <onboarding@resend.dev>",
        toAddr := "hello@kevinpkoch.com", replyTo := "ada@example.com",
        subject := "Portfolio contact: Ada",
        text := "Name: Ada\nEmail: ada@example.com\n\nHi", apiKey := "re_key" }
      (by rfl),
   contact_forward_requires_checks.2 "Ada" "ada@example.com" "Hi" "" 1500
      (fun _ => true) [] 0 (by rfl)⟩

/-- C9: with no `next` query parameter the return target defaults to
`/work/calibration-software`, and a successful unlock navigates there. -/
theorem unlock_default_next :
    resolveNext none = "/work/calibration-software" ∧
    unlockNavTarget none = "/work/calibration-software" :=
  ⟨rfl, rfl⟩

/-- C10: a submission passing the honeypot, required-field and email checks
is answered with status 500 and the body naming the missing RESEND_API_KEY
when that key is unset, and no outbound email request is attempted. -/
theorem contact_missing_key_500 (p : ContactPayload) (toE frE : Option String)
    (hc : p.company = "") (hn : p.name ≠ "") (he : p.email ≠ "") (hm : p.message ≠ "")
    (hv : isEmail p.email = true) :
    contactPOST p none toE frE =
      .reject 500 "Server not configured (missing RESEND_API_KEY)" ∧
    ∀ e, contactPOST p none toE frE ≠ ContactResult.forward e := by
  have hr : contactPOST p none toE frE =
      .reject 500 "Server not configured (missing RESEND_API_KEY)" := by
    simp [contactPOST, hc, hn, he, hm, hv]
  exact ⟨hr, fun e h => ContactResult.noConfusion (hr ▸ h)⟩

/-- C10 witness: a concrete valid submission with the key unset gets the
500 configuration error. -/
theorem contact_missing_key_500_witness :
    contactPOST
        ({ name := "Ada", email := "ada@example.com", message := "Hi",
            company := "" } : ContactPayload) none none none =
      .reject 500 "Server not configured (missing RESEND_API_KEY)" :=
  (contact_missing_key_500
    { name := "Ada", email := "ada@example.com", message := "Hi", company := "" }
    none none rfl (by decide) (by decide) (by decide) (by rfl)).1
